import Mathlib

/-!
The command core of kbmd (src/kbmd/cmds.c)

A shallow embedding of the request dispatcher and the command handlers of
kbmd, the daemon that loads ZFS encryption keys recovered with a PIV token.

* The C functions of cmds.c become functions in a small state monad
  (`Kbmd`).  The state holds the two globals the file mutates (`sys_piv`,
  `sys_pool`), the two mutexes it takes (`piv_lock`, `g_zfs_lock`) and a
  trace of the calls that matter for the properties proved below.  A call
  returns, or ends the door thread with a response, or faults on a NULL
  pointer.
* Constants and macros that come from headers outside the source tree
  (`GUID_LEN`, `EEXIST`, the `KBM_CMD_*` values, ...) are fields of
  `kbmd_hdr`; every result is proved for all their values.
* Functions that cmds.c calls but does not define (libzfs, libnvpair, the
  ebox / PIV layer, the recovery manager) are fields of `kbmd_ext`: for
  each call the structure says what the collaborator returns.  Every result
  is proved for all collaborators.
* bunyan logging calls are left out: they change neither globals nor control
  flow.
-/

namespace Cmds

/-! ## Errors (pivy errf) -/

/-- One link of an error chain: the error name and its message. -/
structure errframe where
  name : String
  msg : String
deriving DecidableEq, Repr

/-- A non-NULL `errf_t *`: the error itself and the chain of its causes,
nearest cause first. -/
structure errf_t where
  top : errframe
  causes : List errframe
deriving DecidableEq, Repr

/-- The value `ERRF_OK` is the NULL `errf_t *`. -/
def ERRF_OK : Option errf_t := none

/-- The call `errf(name, cause, fmt, ...)`: a new error on top of `cause`
(the result is never NULL). -/
def errf (name : String) (cause : Option errf_t) (msg : String) : errf_t :=
  ⟨⟨name, msg⟩, match cause with
    | none => []
    | some c => c.top :: c.causes⟩

/-- The call `errf_caused_by(e, name)`: some link of the chain is called `name`. -/
def errf_caused_by (e : errf_t) (name : String) : Bool :=
  e.top.name == name || e.causes.any (fun f => f.name == name)

/-! ## Data -/

/-- Byte arrays (`uint8_t *` with a length). -/
abbrev Bytes := List Nat

/-- A PIV token handle of pivy; cmds.c reads only its GUID. -/
structure piv_token where
  guid : Bytes
  handle : Nat
deriving DecidableEq, Repr

/-- The struct `kbmd_token_t`; cmds.c reads only `kt_piv`. -/
structure kbmd_token_t where
  kt_piv : piv_token
deriving DecidableEq, Repr

/-- The call `piv_token_guid(tok)`. -/
def piv_token_guid (tok : piv_token) : Bytes := tok.guid

/-- An unlocked or locked ebox of pivy. -/
structure ebox where
  id : Nat
deriving DecidableEq, Repr

/-- A decoded recovery template (`struct ebox_tpl`). -/
structure ebox_tpl where
  id : Nat
deriving DecidableEq, Repr

/-- A libzfs dataset handle. -/
structure zfs_handle_t where
  id : Nat
deriving DecidableEq, Repr

/-- A libzfs pool handle. -/
structure zpool_handle_t where
  id : Nat
deriving DecidableEq, Repr

/-- The two dataset properties read by `get_dataset_status`. -/
inductive zfs_prop_t where
  | ZFS_PROP_ENCRYPTION
  | ZFS_PROP_KEYSTATUS
deriving DecidableEq, Repr

/-- The response nvlist built by `cmd_zpool_create`. -/
structure nvresp where
  pairs : List (String × Bytes)
deriving DecidableEq, Repr

/-- The ten commands of `kbm_cmd_t`, in the order of the switch in
`dispatch_request`. -/
inductive kbm_cmd_t where
  | KBM_CMD_ZFS_UNLOCK
  | KBM_CMD_ZPOOL_CREATE
  | KBM_CMD_RECOVER_START
  | KBM_CMD_RECOVER_RESP
  | KBM_CMD_ADD_RECOVERY
  | KBM_CMD_LIST_RECOVERY
  | KBM_CMD_ACTIVATE_RECOVERY
  | KBM_CMD_CANCEL_RECOVERY
  | KBM_CMD_SET_SYSTOKEN
  | KBM_CMD_SET_SYSPOOL
deriving DecidableEq, Repr

/-- A request nvlist, seen through the `envlist_lookup_*` calls cmds.c makes
on it: for each field, what the lookup returns (the value, or the error).
For a byte array the value is the array itself; the pointer the caller gets
for it is `array_ptr`. -/
structure nvlist_t where
  KBM_NV_CMD : Except errf_t Int
  KBM_NV_GUID : Except errf_t Bytes
  KBM_NV_SYSPOOL : Except errf_t String
  KBM_NV_ZFS_DATASET : Except errf_t String
  KBM_NV_DATASET : Except errf_t String
  KBM_NV_TEMPLATE : Except errf_t Bytes
  KBM_NV_RTOKEN : Except errf_t Bytes
  KBM_NV_STAGE : Except errf_t Bool

/-- The two mutexes taken in cmds.c. -/
inductive kmutex where
  | piv_lock
  | g_zfs_lock
deriving DecidableEq, Repr

/-- The calls recorded in the trace: the mutex operations, the release of the
request and of the response, the token, ebox, key-load and pool-provisioning
calls, the start of a handler, and the two response calls.  Queries of libzfs
and the other releases are not recorded. -/
inductive Ev where
  | mutex_enter (l : kmutex)
  | mutex_exit (l : kmutex)
  | nvlist_free_req
  | nvlist_free_resp
  | kbmd_find_byguid (guid : Bytes) (len : Nat)
  | kbmd_set_token (kt : kbmd_token_t)
  | kbmd_get_ebox (dataset : String)
  | kbmd_unlock_ebox (box : ebox)
  | lzc_load_key (dataset : String) (key : Bytes) (keylen : Nat)
  | kbmd_zpool_create (guid : Option Bytes)
  | handler (c : kbm_cmd_t)
  | kbmd_ret_error (e : Option errf_t)
  | kbmd_ret_nvlist (resp : Option nvresp)
deriving DecidableEq, Repr

/-- Globals of the daemon touched by cmds.c, and the trace.  Both `sys_piv`
and `sys_pool` are pointers that are NULL (`none`) until a token or a pool
name is stored. -/
structure kbmd_state where
  sys_piv : Option kbmd_token_t
  sys_pool : Option String
  piv_lock : Bool
  g_zfs_lock : Bool
  trace : List Ev
deriving DecidableEq, Repr

/-- How a call ends: it returns a value, or the door thread has sent its
response and is gone (`done`), or the process has dereferenced a NULL pointer
and is killed in the state it was in (`fault`). -/
inductive Outcome (α : Type) where
  | ret (a : α) (s : kbmd_state)
  | done (s : kbmd_state)
  | fault (s : kbmd_state)

/-- Computations over the daemon state. -/
def Kbmd (α : Type) : Type := kbmd_state → Outcome α

/-- Return a value, state unchanged. -/
def Kbmd.pure {α : Type} (a : α) : Kbmd α := fun s => Outcome.ret a s

/-- Sequencing: nothing runs after a terminal call or a fault. -/
def Kbmd.bind {α β : Type} (m : Kbmd α) (f : α → Kbmd β) : Kbmd β := fun s =>
  match m s with
  | Outcome.ret a s1 => f a s1
  | Outcome.done s1 => Outcome.done s1
  | Outcome.fault s1 => Outcome.fault s1

instance : Monad Kbmd where
  pure := Kbmd.pure
  bind := Kbmd.bind

/-- Append one call to the trace. -/
def emit (e : Ev) : Kbmd Unit := fun s =>
  Outcome.ret () { s with trace := s.trace ++ [e] }

/-- Set or clear the held flag of a mutex. -/
def set_lock (l : kmutex) (b : Bool) (s : kbmd_state) : kbmd_state :=
  match l with
  | kmutex.piv_lock => { s with piv_lock := b }
  | kmutex.g_zfs_lock => { s with g_zfs_lock := b }

/-- The call `mutex_enter(&l)`. -/
def mutex_enter (l : kmutex) : Kbmd Unit := fun s =>
  Outcome.ret () (set_lock l true { s with trace := s.trace ++ [Ev.mutex_enter l] })

/-- The call `mutex_exit(&l)`. -/
def mutex_exit (l : kmutex) : Kbmd Unit := fun s =>
  Outcome.ret () (set_lock l false { s with trace := s.trace ++ [Ev.mutex_exit l] })

/-- Read the globals. -/
def get_state : Kbmd kbmd_state := fun s => Outcome.ret s s

/-- The call `nvlist_free(req)`. -/
def nvlist_free_req : Kbmd Unit := emit Ev.nvlist_free_req

/-- Modelled from the spec: `kbmd_ret_error` is not defined in cmds.c.  The
spec describes response emission as "a single terminal call", so the call
records the error response and does not come back. -/
def kbmd_ret_error (e : Option errf_t) : Kbmd Unit := fun s =>
  Outcome.done { s with trace := s.trace ++ [Ev.kbmd_ret_error e] }

/-- Modelled from the spec: `kbmd_ret_nvlist` is not defined in cmds.c.  The
spec describes response emission as "a single terminal call", so the call
records the success response and does not come back. -/
def kbmd_ret_nvlist (resp : Option nvresp) : Kbmd Unit := fun s =>
  Outcome.done { s with trace := s.trace ++ [Ev.kbmd_ret_nvlist resp] }

/-- The assignment `sys_pool = newstr`. -/
def set_sys_pool (p : String) : Kbmd Unit := fun s =>
  Outcome.ret () { s with sys_pool := some p }

/-- The test `strcmp(a, b) == 0` for a string `a` and a pointer `b`: strcmp
reads through `b`, so a NULL `b` is a fault. -/
def strcmp_eq (a : String) (b : Option String) : Kbmd Bool := fun s =>
  match b with
  | none => Outcome.fault s
  | some b1 => Outcome.ret (decide (a = b1)) s

/-- The data pointer that a successful `nvlist_lookup_uint8_array` stores for
an array: NULL when the array has no element, the array otherwise. -/
def array_ptr (a : Bytes) : Option Bytes :=
  if a.length = 0 then none else some a

/-- Modelled from the spec: `kbmd_set_token` is not defined in cmds.c.  The
spec says that on a successful lookup the active token is replaced under the
lock. -/
def kbmd_set_token (kt : kbmd_token_t) : Kbmd Unit := fun s =>
  Outcome.ret () { s with sys_piv := some kt, trace := s.trace ++ [Ev.kbmd_set_token kt] }

/-! ## Headers and collaborators -/

/-- Constants and macros of headers that are not part of the source tree. -/
structure kbmd_hdr where
  GUID_LEN : Nat
  EEXIST : Int
  ZIO_CRYPT_OFF : Int
  ZFS_KEYSTATUS_AVAILABLE : Int
  IS_ZPOOL : String → Bool
  errno_name : Int → String
  KBM_CMD_ZFS_UNLOCK : Int
  KBM_CMD_ZPOOL_CREATE : Int
  KBM_CMD_RECOVER_START : Int
  KBM_CMD_RECOVER_RESP : Int
  KBM_CMD_ADD_RECOVERY : Int
  KBM_CMD_LIST_RECOVERY : Int
  KBM_CMD_ACTIVATE_RECOVERY : Int
  KBM_CMD_CANCEL_RECOVERY : Int
  KBM_CMD_SET_SYSTOKEN : Int
  KBM_CMD_SET_SYSPOOL : Int

/-- What the functions called by cmds.c return. -/
structure kbmd_ext where
  kbmd_find_byguid : Bytes → Nat → Except errf_t kbmd_token_t
  zpool_open_canfail : String → Option zpool_handle_t
  zalloc : Nat → Option errf_t
  ezfs_open : String → Except errf_t zfs_handle_t
  zfs_prop_get_int : zfs_handle_t → zfs_prop_t → Nat
  kbmd_get_ebox : String → Bool → Except errf_t ebox
  kbmd_unlock_ebox : ebox → Except errf_t kbmd_token_t
  ebox_key : ebox → Bytes
  lzc_load_key : String → Bool → Bytes → Nat → Int
  sshbuf_from : Bytes → Except Int Unit
  sshbuf_get_ebox_tpl : Bytes → Except errf_t ebox_tpl
  envlist_alloc : Except errf_t nvresp
  kbmd_zpool_create : Option String → Option Bytes → Option ebox_tpl → Option Bytes →
    Nat → nvresp → Option errf_t × nvresp
  add_recovery : ebox_tpl → Bool → Option errf_t
  activate_recovery : Option errf_t
  remove_recovery : Option errf_t
  kbmd_recover_start : nvlist_t → Nat → Kbmd Unit
  kbmd_recover_resp : nvlist_t → Nat → Kbmd Unit
  kbmd_list_recovery : nvlist_t → Kbmd Unit

/-- The call `errfno(func, eno, fmt, ...)`: an error named after the errno
(the result is never NULL). -/
def errfno (H : kbmd_hdr) (func : String) (eno : Int) (msg : String) : errf_t :=
  ⟨⟨H.errno_name eno, func ++ ": " ++ msg⟩, []⟩

/-- Conversion of a 64-bit property value to C `int`. -/
def to_int (v : Nat) : Int :=
  ((v % 2 ^ 32 + 2 ^ 31) % 2 ^ 32 : Nat) - (2 ^ 31 : Int)

/-! ## cmds.c -/

/-- The function `set_systoken` (cmds.c:29). -/
def set_systoken (H : kbmd_hdr) (X : kbmd_ext) (guid : Bytes) (guidlen : Nat) :
    Kbmd (Option errf_t) := do
  if guidlen ≠ H.GUID_LEN then
    pure (some (errf "ParameterError" none
      ("GUID length (" ++ toString guidlen ++ ") is incorrect")))
  else
    mutex_enter kmutex.piv_lock
    let s ← get_state
    let same : Bool :=
      match s.sys_piv with
      | some sp => (piv_token_guid sp.kt_piv).take H.GUID_LEN == guid.take H.GUID_LEN
      | none => false
    if same then
      mutex_exit kmutex.piv_lock
      pure ERRF_OK
    else
      emit (Ev.kbmd_find_byguid guid H.GUID_LEN)
      match X.kbmd_find_byguid guid H.GUID_LEN with
      | Except.error e =>
        mutex_exit kmutex.piv_lock
        pure (some e)
      | Except.ok kt =>
        kbmd_set_token kt
        mutex_exit kmutex.piv_lock
        pure ERRF_OK

/-- The handler `kbmd_set_systoken` (cmds.c:60). -/
def kbmd_set_systoken (H : kbmd_hdr) (X : kbmd_ext) (req : nvlist_t) : Kbmd Unit := do
  let ret ← (match req.KBM_NV_GUID with
    | Except.error _ => pure (some (errf "ParameterError" none "no GUID was specified"))
    | Except.ok guid => set_systoken H X guid guid.length)
  -- done:
  nvlist_free_req
  if ret ≠ ERRF_OK then
    kbmd_ret_error ret
  kbmd_ret_nvlist none

/-- The function `set_syspool` (cmds.c:84). -/
def set_syspool (H : kbmd_hdr) (X : kbmd_ext) (zpool : String) : Kbmd (Option errf_t) := do
  if !H.IS_ZPOOL zpool then
    pure (some (errf "ParameterError" none ("\x27" ++ zpool ++ "\x27 is not a zpool")))
  else
    let zpoollen := zpool.utf8ByteSize
    mutex_enter kmutex.g_zfs_lock
    let zhp := X.zpool_open_canfail zpool
    if zhp = none then
      mutex_exit kmutex.g_zfs_lock
      pure (some (errf "zpool_open_canfail" none
        ("could not determine existence of \x27" ++ zpool ++ "\x27")))
    else
      -- exists = (zhp != NULL) ? B_TRUE : B_FALSE; zpool_close(zhp)
      let pool_exists : Bool := if zhp ≠ none then true else false
      mutex_exit kmutex.g_zfs_lock
      if !pool_exists then
        pure (some (errf "NotFoundError" none ("zpool \x27" ++ zpool ++ "\x27 not found")))
      else
        mutex_enter kmutex.piv_lock
        let s ← get_state
        let same ← strcmp_eq zpool s.sys_pool
        if same then
          mutex_exit kmutex.piv_lock
          pure ERRF_OK
        else
          match X.zalloc (zpoollen + 1) with
          | some e =>
            mutex_exit kmutex.piv_lock
            pure (some e)
          | none =>
            -- strlcpy(newstr, zpool, zpoollen + 1); free(sys_pool); sys_pool = newstr
            set_sys_pool zpool
            mutex_exit kmutex.piv_lock
            pure ERRF_OK

/-- The handler `kbmd_set_syspool` (cmds.c:137). -/
def kbmd_set_syspool (H : kbmd_hdr) (X : kbmd_ext) (req : nvlist_t) : Kbmd Unit := do
  let ret ← (match req.KBM_NV_SYSPOOL with
    | Except.error _ => pure (some (errf "ParameterError" none "no zpool was specified"))
    | Except.ok zpool => set_syspool H X zpool)
  -- done:
  nvlist_free_req
  if ret ≠ ERRF_OK then
    kbmd_ret_error ret
  kbmd_ret_nvlist none

/-- The function `load_key` (cmds.c:160). -/
def load_key (H : kbmd_hdr) (X : kbmd_ext) (dataset : String) (key : Bytes) (keylen : Nat) :
    Kbmd (Option errf_t) := do
  emit (Ev.lzc_load_key dataset key keylen)
  let rc := X.lzc_load_key dataset false key keylen
  if rc ≠ 0 ∧ rc ≠ H.EEXIST then
    pure (some (errfno H "lzc_load_key" rc
      ("failed to load key for " ++ dataset ++ " dataset")))
  else
    pure ERRF_OK

/-- The function `get_dataset_status` (cmds.c:179): the error, or the pair
written to `*encryptedp` and `*lockedp`. -/
def get_dataset_status (H : kbmd_hdr) (X : kbmd_ext) (dataset : String) :
    Kbmd (Except errf_t (Bool × Bool)) := do
  mutex_enter kmutex.g_zfs_lock
  match X.ezfs_open dataset with
  | Except.error e =>
    mutex_exit kmutex.g_zfs_lock
    pure (Except.error (errf "ZfsError" (some e)
      ("unable to open dataset " ++ dataset ++ " to check encryption status")))
  | Except.ok zhp =>
    let encryption := to_int (X.zfs_prop_get_int zhp zfs_prop_t.ZFS_PROP_ENCRYPTION)
    if encryption = H.ZIO_CRYPT_OFF then
      -- done: zfs_close(zhp)
      mutex_exit kmutex.g_zfs_lock
      pure (Except.ok (false, false))
    else
      let keystatus := to_int (X.zfs_prop_get_int zhp zfs_prop_t.ZFS_PROP_KEYSTATUS)
      let locked : Bool := if keystatus = H.ZFS_KEYSTATUS_AVAILABLE then false else true
      -- done: zfs_close(zhp)
      mutex_exit kmutex.g_zfs_lock
      pure (Except.ok (true, locked))

/-- The function `unlock_dataset` (cmds.c:236). -/
def unlock_dataset (H : kbmd_hdr) (X : kbmd_ext) (dataset : String) : Kbmd (Option errf_t) := do
  mutex_enter kmutex.piv_lock
  let ret ← (do
    let st ← get_dataset_status H X dataset
    match st with
    | Except.error e => pure (some e)
    | Except.ok (is_encrypted, is_locked) =>
      if !is_encrypted then
        pure (some (errf "ArgumentError" none
          ("dataset " ++ dataset ++ " does not appear to be encrypted")))
      else if !is_locked then
        pure (some (errf "AlreadyUnlocked" none
          ("dataset " ++ dataset ++ "\x27s key is already loaded")))
      else
        emit (Ev.kbmd_get_ebox dataset)
        match X.kbmd_get_ebox dataset false with
        | Except.error e => pure (some e)
        | Except.ok box =>
          emit (Ev.kbmd_unlock_ebox box)
          match X.kbmd_unlock_ebox box with
          | Except.error e => pure (some e)
          | Except.ok _ =>
            let key := X.ebox_key box
            load_key H X dataset key key.length)
  -- done:
  mutex_exit kmutex.piv_lock
  pure ret

/-- The handler `kbmd_zfs_unlock` (cmds.c:284). -/
def kbmd_zfs_unlock (H : kbmd_hdr) (X : kbmd_ext) (req : nvlist_t) : Kbmd Unit := do
  let ret ← (match req.KBM_NV_ZFS_DATASET with
    | Except.error e => pure (some e)
    | Except.ok dataset => unlock_dataset H X dataset)
  -- done:
  nvlist_free_req
  if ret ≠ ERRF_OK then
    kbmd_ret_error ret
  kbmd_ret_nvlist none

/-- The function `get_request_template` (cmds.c:309). -/
def get_request_template (H : kbmd_hdr) (X : kbmd_ext) (nvl : nvlist_t) :
    Except errf_t ebox_tpl :=
  match nvl.KBM_NV_TEMPLATE with
  | Except.error e => Except.error e
  | Except.ok bytes =>
    match X.sshbuf_from bytes with
    | Except.error eno =>
      Except.error (errfno H "sshbuf_from" eno "cannot allocate ebox template")
    | Except.ok _ => X.sshbuf_get_ebox_tpl bytes

/-- Locals of `cmd_zpool_create` that are live at its label `done`. -/
structure zpool_create_locals where
  ret : Option errf_t
  rcfg : Option ebox_tpl
  resp : Option nvresp

/-- The function `cmd_zpool_create` (cmds.c:331) up to its label `done`;
each `return` is a `goto done`. -/
def cmd_zpool_create_body (H : kbmd_hdr) (X : kbmd_ext) (req : nvlist_t) :
    Kbmd zpool_create_locals := do
  let mut dataset : Option String := none
  let mut rcfg : Option ebox_tpl := none
  let mut guid : Option Bytes := none
  let mut rtoken : Option Bytes := none
  let mut guidlen : Nat := 0
  let mut rtoklen : Nat := 0
  match req.KBM_NV_DATASET with
  | Except.error e =>
    if !errf_caused_by e "ENOENT" then
      return ⟨some e, rcfg, none⟩
  | Except.ok d => dataset := some d
  match req.KBM_NV_GUID with
  | Except.error e =>
    if !errf_caused_by e "ENOENT" then
      return ⟨some e, rcfg, none⟩
  | Except.ok g =>
    guid := array_ptr g
    guidlen := g.length
  if guid ≠ none ∧ guidlen ≠ H.GUID_LEN then
    return ⟨some (errf "InvalidGUID" none ("Bad guid length (" ++ toString guidlen ++ ")")),
      rcfg, none⟩
  match get_request_template H X req with
  | Except.error e =>
    if !errf_caused_by e "ENOENT" then
      return ⟨some e, rcfg, none⟩
  | Except.ok tpl => rcfg := some tpl
  match req.KBM_NV_RTOKEN with
  | Except.error e =>
    if !errf_caused_by e "ENOENT" then
      return ⟨some e, rcfg, none⟩
  | Except.ok r =>
    rtoken := array_ptr r
    rtoklen := r.length
  match X.envlist_alloc with
  | Except.error e => return ⟨some e, rcfg, none⟩
  | Except.ok resp =>
    emit (Ev.kbmd_zpool_create guid)
    let r := X.kbmd_zpool_create dataset guid rcfg rtoken rtoklen resp
    return ⟨r.1, rcfg, some r.2⟩

/-- The function `cmd_zpool_create` (cmds.c:331). -/
def cmd_zpool_create (H : kbmd_hdr) (X : kbmd_ext) (req : nvlist_t) : Kbmd Unit := do
  let l ← cmd_zpool_create_body H X req
  -- done:
  nvlist_free_req
  -- ebox_tpl_free(rcfg)
  if l.ret ≠ ERRF_OK then
    emit Ev.nvlist_free_resp
    kbmd_ret_error l.ret
  kbmd_ret_nvlist l.resp

/-- The function `cmd_add_recovery` (cmds.c:392). -/
def cmd_add_recovery (H : kbmd_hdr) (X : kbmd_ext) (req : nvlist_t) : Kbmd Unit := do
  let ret : Option errf_t :=
    match get_request_template H X req with
    | Except.error e => some e
    | Except.ok tpl =>
      match req.KBM_NV_STAGE with
      | Except.error e => some e
      | Except.ok stage => X.add_recovery tpl stage
  -- done:
  nvlist_free_req
  -- ebox_tpl_free(tpl)
  if ret ≠ ERRF_OK then
    kbmd_ret_error ret
  kbmd_ret_nvlist none

/-- The function `cmd_activate_recovery` (cmds.c:417). -/
def cmd_activate_recovery (X : kbmd_ext) : Kbmd Unit := do
  nvlist_free_req
  let ret := X.activate_recovery
  if ret ≠ ERRF_OK then
    kbmd_ret_error ret
  kbmd_ret_nvlist none

/-- The function `cmd_remove_recovery` (cmds.c:430). -/
def cmd_remove_recovery (X : kbmd_ext) : Kbmd Unit := do
  nvlist_free_req
  let ret := X.remove_recovery
  if ret ≠ ERRF_OK then
    kbmd_ret_error ret
  kbmd_ret_nvlist none

/-- The function `dispatch_request` (cmds.c:443).  The local `cmdval` has no
initialiser; `cmdval0` is the value it holds when the lookup does not write
it. -/
def dispatch_request (H : kbmd_hdr) (X : kbmd_ext) (req : nvlist_t) (req_pid : Nat)
    (cmdval0 : Int) : Kbmd Unit := do
  let cmdval ← (match req.KBM_NV_CMD with
    | Except.error e => do
      nvlist_free_req
      kbmd_ret_error (some (errf "InvalidCommand" (some e) "Unable to retrieve command value"))
      pure cmdval0
    | Except.ok v => pure v)
  if cmdval = H.KBM_CMD_ZFS_UNLOCK then
    emit (Ev.handler kbm_cmd_t.KBM_CMD_ZFS_UNLOCK)
    kbmd_zfs_unlock H X req
  else if cmdval = H.KBM_CMD_ZPOOL_CREATE then
    emit (Ev.handler kbm_cmd_t.KBM_CMD_ZPOOL_CREATE)
    cmd_zpool_create H X req
  else if cmdval = H.KBM_CMD_RECOVER_START then
    emit (Ev.handler kbm_cmd_t.KBM_CMD_RECOVER_START)
    X.kbmd_recover_start req req_pid
  else if cmdval = H.KBM_CMD_RECOVER_RESP then
    emit (Ev.handler kbm_cmd_t.KBM_CMD_RECOVER_RESP)
    X.kbmd_recover_resp req req_pid
  else if cmdval = H.KBM_CMD_ADD_RECOVERY then
    emit (Ev.handler kbm_cmd_t.KBM_CMD_ADD_RECOVERY)
    cmd_add_recovery H X req
  else if cmdval = H.KBM_CMD_LIST_RECOVERY then
    emit (Ev.handler kbm_cmd_t.KBM_CMD_LIST_RECOVERY)
    X.kbmd_list_recovery req
  else if cmdval = H.KBM_CMD_ACTIVATE_RECOVERY then
    emit (Ev.handler kbm_cmd_t.KBM_CMD_ACTIVATE_RECOVERY)
    cmd_activate_recovery X
  else if cmdval = H.KBM_CMD_CANCEL_RECOVERY then
    emit (Ev.handler kbm_cmd_t.KBM_CMD_CANCEL_RECOVERY)
    cmd_remove_recovery X
  else if cmdval = H.KBM_CMD_SET_SYSTOKEN then
    emit (Ev.handler kbm_cmd_t.KBM_CMD_SET_SYSTOKEN)
    kbmd_set_systoken H X req
  else if cmdval = H.KBM_CMD_SET_SYSPOOL then
    emit (Ev.handler kbm_cmd_t.KBM_CMD_SET_SYSPOOL)
    kbmd_set_syspool H X req
  else
    nvlist_free_req
    kbmd_ret_error (some (errf "InvalidCommand" none
      ("Invalid command value " ++ toString cmdval)))

/-! ## Vocabulary of the properties -/

/-- The header value of each command of `kbm_cmd_t`. -/
def cmd_code (H : kbmd_hdr) : kbm_cmd_t → Int
  | kbm_cmd_t.KBM_CMD_ZFS_UNLOCK => H.KBM_CMD_ZFS_UNLOCK
  | kbm_cmd_t.KBM_CMD_ZPOOL_CREATE => H.KBM_CMD_ZPOOL_CREATE
  | kbm_cmd_t.KBM_CMD_RECOVER_START => H.KBM_CMD_RECOVER_START
  | kbm_cmd_t.KBM_CMD_RECOVER_RESP => H.KBM_CMD_RECOVER_RESP
  | kbm_cmd_t.KBM_CMD_ADD_RECOVERY => H.KBM_CMD_ADD_RECOVERY
  | kbm_cmd_t.KBM_CMD_LIST_RECOVERY => H.KBM_CMD_LIST_RECOVERY
  | kbm_cmd_t.KBM_CMD_ACTIVATE_RECOVERY => H.KBM_CMD_ACTIVATE_RECOVERY
  | kbm_cmd_t.KBM_CMD_CANCEL_RECOVERY => H.KBM_CMD_CANCEL_RECOVERY
  | kbm_cmd_t.KBM_CMD_SET_SYSTOKEN => H.KBM_CMD_SET_SYSTOKEN
  | kbm_cmd_t.KBM_CMD_SET_SYSPOOL => H.KBM_CMD_SET_SYSPOOL

/-- The ten commands, in the order of the switch. -/
def all_cmds : List kbm_cmd_t :=
  [kbm_cmd_t.KBM_CMD_ZFS_UNLOCK, kbm_cmd_t.KBM_CMD_ZPOOL_CREATE,
   kbm_cmd_t.KBM_CMD_RECOVER_START, kbm_cmd_t.KBM_CMD_RECOVER_RESP,
   kbm_cmd_t.KBM_CMD_ADD_RECOVERY, kbm_cmd_t.KBM_CMD_LIST_RECOVERY,
   kbm_cmd_t.KBM_CMD_ACTIVATE_RECOVERY, kbm_cmd_t.KBM_CMD_CANCEL_RECOVERY,
   kbm_cmd_t.KBM_CMD_SET_SYSTOKEN, kbm_cmd_t.KBM_CMD_SET_SYSPOOL]

/-- The seven commands whose handler is defined in cmds.c. -/
def core_cmds : List kbm_cmd_t :=
  [kbm_cmd_t.KBM_CMD_ZFS_UNLOCK, kbm_cmd_t.KBM_CMD_ZPOOL_CREATE,
   kbm_cmd_t.KBM_CMD_ADD_RECOVERY, kbm_cmd_t.KBM_CMD_ACTIVATE_RECOVERY,
   kbm_cmd_t.KBM_CMD_CANCEL_RECOVERY, kbm_cmd_t.KBM_CMD_SET_SYSTOKEN,
   kbm_cmd_t.KBM_CMD_SET_SYSPOOL]

/-- The integer values of the ten known commands. -/
def known_codes (H : kbmd_hdr) : List Int := all_cmds.map (cmd_code H)

/-- The command tag of a request is malformed: the lookup of the command
field fails, or its value is none of the ten known ones. -/
def malformed_tag (H : kbmd_hdr) (req : nvlist_t) : Prop :=
  match req.KBM_NV_CMD with
  | Except.error _ => True
  | Except.ok v => v ∉ known_codes H

/-- An optional request field is present, or absent: its lookup succeeds, or
fails with an error caused by ENOENT. -/
def present_or_absent {α : Type} (lk : Except errf_t α) : Prop :=
  match lk with
  | Except.error e => errf_caused_by e "ENOENT" = true
  | Except.ok _ => True

/-- A response to the client. -/
def is_response : Ev → Bool
  | Ev.kbmd_ret_error _ => true
  | Ev.kbmd_ret_nvlist _ => true
  | _ => false

/-- The start of a command handler. -/
def is_handler : Ev → Bool
  | Ev.handler _ => true
  | _ => false

/-- The release of the request. -/
def is_req_free : Ev → Bool
  | Ev.nvlist_free_req => true
  | _ => false

/-- A call that is neither a response, nor the start of a handler, nor the
release of the request. -/
def is_plain (e : Ev) : Bool := !is_response e && !is_handler e && !is_req_free e

/-- From the state `s`, the call returned to its caller and appended only
plain calls to the trace. -/
def returned_plain {α : Type} (s : kbmd_state) (o : Outcome α) : Prop :=
  ∃ a s1 evs, o = Outcome.ret a s1 ∧ s1.trace = s.trace ++ evs ∧
    ∀ e ∈ evs, is_plain e = true

/-- A computation that always returns to its caller and appends only plain
calls to the trace. -/
def Plain {α : Type} (m : Kbmd α) : Prop :=
  ∀ s, returned_plain s (m s)

/-- From the state `s`, the handler served its request: it ended in a terminal
call, having released the request once and sent one response, and started no
other handler. -/
def served (s : kbmd_state) (o : Outcome Unit) : Prop :=
  ∃ s1 evs, o = Outcome.done s1 ∧ s1.trace = s.trace ++ evs ∧
    evs.filter is_handler = [] ∧ (evs.filter is_response).length = 1 ∧
    (evs.filter is_req_free).length = 1

/-- A handler that serves its request from every state. -/
def Serves (m : Kbmd Unit) : Prop :=
  ∀ s, served s (m s)

/-- The function that the switch of `dispatch_request` calls for a command. -/
def handler_of (H : kbmd_hdr) (X : kbmd_ext) (req : nvlist_t) (req_pid : Nat) :
    kbm_cmd_t → Kbmd Unit
  | kbm_cmd_t.KBM_CMD_ZFS_UNLOCK => kbmd_zfs_unlock H X req
  | kbm_cmd_t.KBM_CMD_ZPOOL_CREATE => cmd_zpool_create H X req
  | kbm_cmd_t.KBM_CMD_RECOVER_START => X.kbmd_recover_start req req_pid
  | kbm_cmd_t.KBM_CMD_RECOVER_RESP => X.kbmd_recover_resp req req_pid
  | kbm_cmd_t.KBM_CMD_ADD_RECOVERY => cmd_add_recovery H X req
  | kbm_cmd_t.KBM_CMD_LIST_RECOVERY => X.kbmd_list_recovery req
  | kbm_cmd_t.KBM_CMD_ACTIVATE_RECOVERY => cmd_activate_recovery X
  | kbm_cmd_t.KBM_CMD_CANCEL_RECOVERY => cmd_remove_recovery X
  | kbm_cmd_t.KBM_CMD_SET_SYSTOKEN => kbmd_set_systoken H X req
  | kbm_cmd_t.KBM_CMD_SET_SYSPOOL => kbmd_set_syspool H X req

/-- One step of a thread on mutex `l`: entering a mutex it holds, or leaving
one it does not hold, is refused (`none`). -/
def lock_step (l : kmutex) (held : Bool) (e : Ev) : Option Bool :=
  match e with
  | Ev.mutex_enter l1 => if l1 = l then (if held then none else some true) else some held
  | Ev.mutex_exit l1 => if l1 = l then (if held then some false else none) else some held
  | _ => some held

/-- Replay a trace on mutex `l`, from the state `held`. -/
def lock_run (l : kmutex) (held : Bool) : List Ev → Option Bool
  | [] => some held
  | e :: es =>
    match lock_step l held e with
    | none => none
    | some h => lock_run l h es

/-- A call keeps the discipline of `piv_lock`: it returns, what it appended to
the trace replays on a free mutex without a refused step and ends with the
mutex free, and the held flag is clear. -/
def piv_lock_balanced {α : Type} (s : kbmd_state) (o : Outcome α) : Prop :=
  ∃ r s1 evs, o = Outcome.ret r s1 ∧ s1.trace = s.trace ++ evs ∧
    s1.piv_lock = false ∧ lock_run kmutex.piv_lock false evs = some false ∧
    evs.count (Ev.mutex_enter kmutex.piv_lock) = evs.count (Ev.mutex_exit kmutex.piv_lock)

/-! ## A concrete system -/

/-- Header values of an illumos build: 16-byte GUIDs, EEXIST = 17,
ZIO_CRYPT_OFF = 2, ZFS_KEYSTATUS_AVAILABLE = 2, commands numbered from 0, and
pool names are the dataset names without a slash. -/
def sample_hdr : kbmd_hdr where
  GUID_LEN := 16
  EEXIST := 17
  ZIO_CRYPT_OFF := 2
  ZFS_KEYSTATUS_AVAILABLE := 2
  IS_ZPOOL := fun name => !name.toList.contains (Char.ofNat 47)
  errno_name := fun eno => "errno " ++ toString eno
  KBM_CMD_ZFS_UNLOCK := 0
  KBM_CMD_ZPOOL_CREATE := 1
  KBM_CMD_RECOVER_START := 2
  KBM_CMD_RECOVER_RESP := 3
  KBM_CMD_ADD_RECOVERY := 4
  KBM_CMD_LIST_RECOVERY := 5
  KBM_CMD_ACTIVATE_RECOVERY := 6
  KBM_CMD_CANCEL_RECOVERY := 7
  KBM_CMD_SET_SYSTOKEN := 8
  KBM_CMD_SET_SYSPOOL := 9

/-- The error of a lookup that finds nothing. -/
def sample_enoent : errf_t := ⟨⟨"ENOENT", "no such entry"⟩, []⟩

/-- A host with one pool, zones, and three datasets: zones/plain is not
encrypted, zones/open is encrypted with its key loaded, zones/locked is
encrypted without its key; the kernel answers EEXIST to a key load. -/
def sample_ext : kbmd_ext where
  kbmd_find_byguid := fun guid _ => Except.ok ⟨⟨guid, 1⟩⟩
  zpool_open_canfail := fun name => if name = "zones" then some ⟨1⟩ else none
  zalloc := fun _ => none
  ezfs_open := fun dataset =>
    if dataset = "zones/plain" then Except.ok ⟨0⟩
    else if dataset = "zones/open" then Except.ok ⟨1⟩
    else if dataset = "zones/locked" then Except.ok ⟨2⟩
    else Except.error sample_enoent
  zfs_prop_get_int := fun zhp prop =>
    match prop with
    | zfs_prop_t.ZFS_PROP_ENCRYPTION => if zhp.id = 0 then 2 else 8
    | zfs_prop_t.ZFS_PROP_KEYSTATUS => if zhp.id = 1 then 2 else 1
  kbmd_get_ebox := fun _ _ => Except.ok ⟨7⟩
  kbmd_unlock_ebox := fun _ => Except.ok ⟨⟨[], 1⟩⟩
  ebox_key := fun _ => [1, 2, 3, 4]
  lzc_load_key := fun _ _ _ _ => 17
  sshbuf_from := fun _ => Except.ok ()
  sshbuf_get_ebox_tpl := fun _ => Except.ok ⟨0⟩
  envlist_alloc := Except.ok ⟨[]⟩
  kbmd_zpool_create := fun _ _ _ _ _ resp => (none, resp)
  add_recovery := fun _ _ => none
  activate_recovery := none
  remove_recovery := none
  kbmd_recover_start := fun _ _ => kbmd_ret_nvlist none
  kbmd_recover_resp := fun _ _ => kbmd_ret_nvlist none
  kbmd_list_recovery := fun _ => kbmd_ret_nvlist none

/-- A request with the given command lookup, a 3-byte GUID, the pool zones,
the dataset zones/locked to unlock, and no dataset, template or recovery token
for a pool creation. -/
def sample_req (cmd : Except errf_t Int) : nvlist_t where
  KBM_NV_CMD := cmd
  KBM_NV_GUID := Except.ok [1, 2, 3]
  KBM_NV_SYSPOOL := Except.ok "zones"
  KBM_NV_ZFS_DATASET := Except.ok "zones/locked"
  KBM_NV_DATASET := Except.error sample_enoent
  KBM_NV_TEMPLATE := Except.error sample_enoent
  KBM_NV_RTOKEN := Except.error sample_enoent
  KBM_NV_STAGE := Except.ok false

/-- A 16-byte GUID. -/
def sample_guid : Bytes := [0, 1, 2, 3, 4, 5, 6, 7, 8, 9, 10, 11, 12, 13, 14, 15]

/-- The daemon with no system token, the system pool zones, no mutex held. -/
def sample_state : kbmd_state where
  sys_piv := none
  sys_pool := some "zones"
  piv_lock := false
  g_zfs_lock := false
  trace := []

/-- The daemon as it starts: no system token and no system pool yet, no mutex
held. -/
def boot_state : kbmd_state where
  sys_piv := none
  sys_pool := none
  piv_lock := false
  g_zfs_lock := false
  trace := []

/-- A pool creation request (command value 1) whose GUID field is present
and holds a byte array of length 0; no dataset, template or recovery token. -/
def empty_guid_req : nvlist_t where
  KBM_NV_CMD := Except.ok 1
  KBM_NV_GUID := Except.ok []
  KBM_NV_SYSPOOL := Except.error sample_enoent
  KBM_NV_ZFS_DATASET := Except.error sample_enoent
  KBM_NV_DATASET := Except.error sample_enoent
  KBM_NV_TEMPLATE := Except.error sample_enoent
  KBM_NV_RTOKEN := Except.error sample_enoent
  KBM_NV_STAGE := Except.error sample_enoent

/-! ## Reasoning about the monad -/

@[simp] theorem pure_run {α : Type} (a : α) (s : kbmd_state) :
    (Pure.pure a : Kbmd α) s = Outcome.ret a s := rfl

@[simp] theorem bind_run {α β : Type} (m : Kbmd α) (f : α → Kbmd β) (s : kbmd_state) :
    (m >>= f) s = (match m s with
      | Outcome.ret a s1 => f a s1
      | Outcome.done s1 => Outcome.done s1
      | Outcome.fault s1 => Outcome.fault s1) := rfl

/-! ## The dispatcher on a malformed command tag -/

/-- C1: on a request whose command tag is malformed (the lookup of the command
field fails, or its value is none of the ten known commands) dispatch_request
does exactly two things: it frees the request, once, and it answers with an
InvalidCommand error.  No handler is started. -/
theorem dispatch_request_malformed_tag (H : kbmd_hdr) (X : kbmd_ext) (req : nvlist_t)
    (req_pid : Nat) (cmdval0 : Int) (s : kbmd_state) (hbad : malformed_tag H req) :
    ∃ e, dispatch_request H X req req_pid cmdval0 s =
        Outcome.done { s with trace := s.trace ++
          [Ev.nvlist_free_req, Ev.kbmd_ret_error (some e)] } ∧
      e.top.name = "InvalidCommand" := by
  unfold dispatch_request
  unfold malformed_tag at hbad
  cases hc : req.KBM_NV_CMD with
  | error e =>
    exact ⟨errf "InvalidCommand" (some e) "Unable to retrieve command value",
      by simp [nvlist_free_req, emit, kbmd_ret_error], rfl⟩
  | ok v =>
    rw [hc] at hbad
    simp [known_codes, all_cmds, cmd_code] at hbad
    obtain ⟨h1, h2, h3, h4, h5, h6, h7, h8, h9, h10⟩ := hbad
    exact ⟨errf "InvalidCommand" none ("Invalid command value " ++ toString v),
      by simp [h1, h2, h3, h4, h5, h6, h7, h8, h9, h10, nvlist_free_req, emit, kbmd_ret_error],
      rfl⟩

/-! ## Unlocking a dataset -/

/-- C2: when the storage layer reports the dataset as not encrypted (the
dataset opens and its encryption property is ZIO_CRYPT_OFF, so that
get_dataset_status writes encrypted = false, locked = false), unlock_dataset
returns an ArgumentError.  Between taking and releasing piv_lock it only
queries the status: it calls neither kbmd_get_ebox, nor kbmd_unlock_ebox, nor
lzc_load_key. -/
theorem unlock_dataset_not_encrypted (H : kbmd_hdr) (X : kbmd_ext) (dataset : String)
    (s : kbmd_state) (zhp : zfs_handle_t)
    (hopen : X.ezfs_open dataset = Except.ok zhp)
    (henc : to_int (X.zfs_prop_get_int zhp zfs_prop_t.ZFS_PROP_ENCRYPTION) = H.ZIO_CRYPT_OFF) :
    (∃ s1, get_dataset_status H X dataset s = Outcome.ret (Except.ok (false, false)) s1) ∧
    ∃ e, unlock_dataset H X dataset s =
        Outcome.ret (some e) { s with
          piv_lock := false, g_zfs_lock := false,
          trace := s.trace ++ [Ev.mutex_enter kmutex.piv_lock,
            Ev.mutex_enter kmutex.g_zfs_lock, Ev.mutex_exit kmutex.g_zfs_lock,
            Ev.mutex_exit kmutex.piv_lock] } ∧
      e.top.name = "ArgumentError" := by
  constructor
  · simp [get_dataset_status, hopen, henc, mutex_enter, mutex_exit, set_lock]
  · simp [unlock_dataset, get_dataset_status, hopen, henc, mutex_enter, mutex_exit,
      set_lock, errf]

/-- C3: when the storage layer reports the dataset as encrypted with its key
available (encrypted = true, locked = false), unlock_dataset returns an
AlreadyUnlocked error, whose name is not the ArgumentError of a dataset that
is not encrypted.  Between taking and releasing piv_lock it only queries the
status: it calls neither kbmd_get_ebox, nor kbmd_unlock_ebox, nor
lzc_load_key. -/
theorem unlock_dataset_already_unlocked (H : kbmd_hdr) (X : kbmd_ext) (dataset : String)
    (s : kbmd_state) (zhp : zfs_handle_t)
    (hopen : X.ezfs_open dataset = Except.ok zhp)
    (henc : to_int (X.zfs_prop_get_int zhp zfs_prop_t.ZFS_PROP_ENCRYPTION) ≠ H.ZIO_CRYPT_OFF)
    (hkey : to_int (X.zfs_prop_get_int zhp zfs_prop_t.ZFS_PROP_KEYSTATUS) =
      H.ZFS_KEYSTATUS_AVAILABLE) :
    (∃ s1, get_dataset_status H X dataset s = Outcome.ret (Except.ok (true, false)) s1) ∧
    ∃ e, unlock_dataset H X dataset s =
        Outcome.ret (some e) { s with
          piv_lock := false, g_zfs_lock := false,
          trace := s.trace ++ [Ev.mutex_enter kmutex.piv_lock,
            Ev.mutex_enter kmutex.g_zfs_lock, Ev.mutex_exit kmutex.g_zfs_lock,
            Ev.mutex_exit kmutex.piv_lock] } ∧
      e.top.name = "AlreadyUnlocked" ∧ e.top.name ≠ "ArgumentError" := by
  constructor
  · simp [get_dataset_status, hopen, henc, hkey, mutex_enter, mutex_exit, set_lock]
  · refine ⟨errf "AlreadyUnlocked" none
      ("dataset " ++ dataset ++ "\x27s key is already loaded"), ?_, rfl, ?_⟩
    · simp [unlock_dataset, get_dataset_status, hopen, henc, hkey, mutex_enter, mutex_exit,
        set_lock]
    · show "AlreadyUnlocked" ≠ "ArgumentError"
      decide

/-- C4: when the dataset is reported encrypted and locked, and its recovery
box is fetched and unlocked successfully, unlock_dataset calls lzc_load_key
(through load_key) exactly once, with the key and key length that ebox_key
gives for that box.  It returns ERRF_OK exactly when lzc_load_key returns 0
or EEXIST, and an error for every other return code. -/
theorem unlock_dataset_loads_key_once (H : kbmd_hdr) (X : kbmd_ext) (dataset : String)
    (s : kbmd_state) (zhp : zfs_handle_t) (box : ebox) (kt : kbmd_token_t)
    (hopen : X.ezfs_open dataset = Except.ok zhp)
    (henc : to_int (X.zfs_prop_get_int zhp zfs_prop_t.ZFS_PROP_ENCRYPTION) ≠ H.ZIO_CRYPT_OFF)
    (hkey : to_int (X.zfs_prop_get_int zhp zfs_prop_t.ZFS_PROP_KEYSTATUS) ≠
      H.ZFS_KEYSTATUS_AVAILABLE)
    (hbox : X.kbmd_get_ebox dataset false = Except.ok box)
    (hunlock : X.kbmd_unlock_ebox box = Except.ok kt) :
    ∃ r, unlock_dataset H X dataset s =
        Outcome.ret r { s with
          piv_lock := false, g_zfs_lock := false,
          trace := s.trace ++ [Ev.mutex_enter kmutex.piv_lock,
            Ev.mutex_enter kmutex.g_zfs_lock, Ev.mutex_exit kmutex.g_zfs_lock,
            Ev.kbmd_get_ebox dataset, Ev.kbmd_unlock_ebox box,
            Ev.lzc_load_key dataset (X.ebox_key box) (X.ebox_key box).length,
            Ev.mutex_exit kmutex.piv_lock] } ∧
      (r = ERRF_OK ↔
        X.lzc_load_key dataset false (X.ebox_key box) (X.ebox_key box).length = 0 ∨
        X.lzc_load_key dataset false (X.ebox_key box) (X.ebox_key box).length = H.EEXIST) := by
  by_cases hrc : X.lzc_load_key dataset false (X.ebox_key box) (X.ebox_key box).length = 0 ∨
      X.lzc_load_key dataset false (X.ebox_key box) (X.ebox_key box).length = H.EEXIST
  · refine ⟨ERRF_OK, ?_, by simp [hrc]⟩
    have hn : ¬ (¬ X.lzc_load_key dataset false (X.ebox_key box) (X.ebox_key box).length = 0 ∧
        ¬ X.lzc_load_key dataset false (X.ebox_key box) (X.ebox_key box).length = H.EEXIST) :=
      fun h => hrc.elim h.1 h.2
    simp [unlock_dataset, get_dataset_status, load_key, hopen, henc, hkey, hbox, hunlock,
      mutex_enter, mutex_exit, set_lock, emit, hn]
  · have hy : (¬ X.lzc_load_key dataset false (X.ebox_key box) (X.ebox_key box).length = 0 ∧
        ¬ X.lzc_load_key dataset false (X.ebox_key box) (X.ebox_key box).length = H.EEXIST) :=
      ⟨fun h => hrc (Or.inl h), fun h => hrc (Or.inr h)⟩
    refine ⟨some (errfno H "lzc_load_key"
      (X.lzc_load_key dataset false (X.ebox_key box) (X.ebox_key box).length)
      ("failed to load key for " ++ dataset ++ " dataset")), ?_, by simp [hrc, ERRF_OK]⟩
    simp [unlock_dataset, get_dataset_status, load_key, hopen, henc, hkey, hbox, hunlock,
      mutex_enter, mutex_exit, set_lock, emit, hy]

/-! ## The system token -/

/-- C5: a GUID whose length is not GUID_LEN makes set_systoken fail with
ParameterError.  It makes no call at all (no lock taken, no token lookup) and
the daemon state, active token and active pool included, is exactly what it
was. -/
theorem set_systoken_bad_length (H : kbmd_hdr) (X : kbmd_ext) (guid : Bytes)
    (guidlen : Nat) (s : kbmd_state) (hlen : guidlen ≠ H.GUID_LEN) :
    ∃ e, set_systoken H X guid guidlen s = Outcome.ret (some e) s ∧
      e.top.name = "ParameterError" := by
  simp [set_systoken, hlen, errf]

/-- C6: set_systoken is idempotent.  Let the token lookup honour its contract
(a token found for a GUID carries that GUID).  If a first set_systoken(guid)
returns ERRF_OK and leaves the state s1, a second call with the same GUID
returns ERRF_OK and only takes and releases piv_lock: there is no token
lookup, and the active token and the active pool are those of s1. -/
theorem set_systoken_twice (H : kbmd_hdr) (X : kbmd_ext) (guid : Bytes) (guidlen : Nat)
    (s s1 : kbmd_state)
    (hfind : ∀ kt, X.kbmd_find_byguid guid H.GUID_LEN = Except.ok kt →
      (piv_token_guid kt.kt_piv).take H.GUID_LEN = guid.take H.GUID_LEN)
    (hfirst : set_systoken H X guid guidlen s = Outcome.ret ERRF_OK s1) :
    guidlen = H.GUID_LEN ∧
    set_systoken H X guid guidlen s1 =
      Outcome.ret ERRF_OK { s1 with trace := s1.trace ++
        [Ev.mutex_enter kmutex.piv_lock, Ev.mutex_exit kmutex.piv_lock] } := by
  by_cases hlen : guidlen = H.GUID_LEN
  · refine ⟨hlen, ?_⟩
    subst hlen
    cases hp : s.sys_piv with
    | none =>
      cases hk : X.kbmd_find_byguid guid H.GUID_LEN with
      | error e =>
        simp [set_systoken, mutex_enter, mutex_exit, set_lock, get_state, emit, hp, hk,
          ERRF_OK] at hfirst
      | ok kt =>
        have hg := hfind kt hk
        simp [set_systoken, mutex_enter, mutex_exit, set_lock, get_state, emit, hp, hk,
          ERRF_OK, kbmd_set_token] at hfirst
        subst hfirst
        simp [set_systoken, mutex_enter, mutex_exit, set_lock, get_state, ERRF_OK, hg]
    | some sp =>
      by_cases hsame : (piv_token_guid sp.kt_piv).take H.GUID_LEN = guid.take H.GUID_LEN
      · simp [set_systoken, mutex_enter, mutex_exit, set_lock, get_state, hp, hsame,
          ERRF_OK] at hfirst
        subst hfirst
        simp [set_systoken, mutex_enter, mutex_exit, set_lock, get_state, ERRF_OK, hp, hsame]
      · cases hk : X.kbmd_find_byguid guid H.GUID_LEN with
        | error e =>
          simp [set_systoken, mutex_enter, mutex_exit, set_lock, get_state, emit, hp, hk,
            hsame, ERRF_OK] at hfirst
        | ok kt =>
          have hg := hfind kt hk
          simp [set_systoken, mutex_enter, mutex_exit, set_lock, get_state, emit, hp, hk,
            hsame, ERRF_OK, kbmd_set_token] at hfirst
          subst hfirst
          simp [set_systoken, mutex_enter, mutex_exit, set_lock, get_state, ERRF_OK, hg]
  · simp [set_systoken, hlen, ERRF_OK] at hfirst

/-! ## Creating a pool -/

/-- A GUID field that is present with a length other than 0 and other than
GUID_LEN, in a request whose dataset field is present or absent:
cmd_zpool_create frees the request and answers with an InvalidGUID error;
kbmd_zpool_create is not called, whatever the template and recovery token
fields are. -/
theorem cmd_zpool_create_bad_guid_nonempty (H : kbmd_hdr) (X : kbmd_ext) (req : nvlist_t)
    (s : kbmd_state) (g : Bytes)
    (hguid : req.KBM_NV_GUID = Except.ok g) (hne : g.length ≠ 0)
    (hlen : g.length ≠ H.GUID_LEN) (hdataset : present_or_absent req.KBM_NV_DATASET) :
    ∃ e, cmd_zpool_create H X req s =
        Outcome.done { s with trace := s.trace ++
          [Ev.nvlist_free_req, Ev.nvlist_free_resp, Ev.kbmd_ret_error (some e)] } ∧
      e.top.name = "InvalidGUID" := by
  unfold cmd_zpool_create cmd_zpool_create_body
  unfold present_or_absent at hdataset
  cases hds : req.KBM_NV_DATASET with
  | error e =>
    rw [hds] at hdataset
    simp [hguid, hne, hlen, hdataset, array_ptr, nvlist_free_req, emit, kbmd_ret_error,
      ERRF_OK, errf]
  | ok d =>
    simp [hguid, hne, hlen, array_ptr, nvlist_free_req, emit, kbmd_ret_error, ERRF_OK, errf]

/-- C7 (the code departs from the claim): the GUID field of the request is
present and holds 0 bytes, a length other than GUID_LEN = 16.  The lookup
stores a NULL pointer for it, the test guid != NULL of cmd_zpool_create skips
the length check, and kbmd_zpool_create is called, with a NULL GUID; the
request is answered with its success payload instead of InvalidGUID. -/
theorem cmd_zpool_create_empty_guid_is_provisioned :
    empty_guid_req.KBM_NV_GUID = Except.ok [] ∧
    ([] : Bytes).length ≠ sample_hdr.GUID_LEN ∧
    present_or_absent empty_guid_req.KBM_NV_DATASET ∧
    cmd_zpool_create sample_hdr sample_ext empty_guid_req sample_state =
      Outcome.done { sample_state with trace := sample_state.trace ++
        [Ev.kbmd_zpool_create none, Ev.nvlist_free_req, Ev.kbmd_ret_nvlist (some ⟨[]⟩)] } := by
  refine ⟨rfl, by decide, rfl, ?_⟩
  rfl

/-! ## Every core handler answers once -/

theorem plain_pure {α : Type} (a : α) : Plain (pure a : Kbmd α) :=
  fun s => ⟨a, s, [], rfl, by simp, by simp⟩

theorem served_bind {α : Type} {m : Kbmd α} {f : α → Kbmd Unit} (s : kbmd_state)
    (hm : returned_plain s (m s)) (hf : ∀ a, Serves (f a)) : served s ((m >>= f) s) := by
  obtain ⟨a, s1, evs1, h1, ht1, hp1⟩ := hm
  obtain ⟨s2, evs2, h2, ht2, hh2, hr2, hq2⟩ := hf a s1
  have hnil : ∀ p : Ev → Bool, (∀ e, p e = true → is_plain e = false) →
      evs1.filter p = [] := by
    intro p hp
    rw [List.filter_eq_nil_iff]
    intro e he hpe
    have := hp1 e he
    rw [hp e hpe] at this
    exact Bool.noConfusion this
  have n1 := hnil is_handler (by intro e; cases e <;> simp [is_handler, is_plain])
  have n2 := hnil is_response (by intro e; cases e <;> simp [is_response, is_plain])
  have n3 := hnil is_req_free
    (by intro e; cases e <;> simp [is_req_free, is_plain, is_response, is_handler])
  exact ⟨s2, evs1 ++ evs2, by simp [h1, h2], by simp [ht1, ht2], by simp [n1, hh2],
    by simp [n2, hr2], by simp [n3, hq2]⟩

theorem plain_bind {α β : Type} {m : Kbmd α} {f : α → Kbmd β} (hm : Plain m)
    (hf : ∀ a, Plain (f a)) : Plain (m >>= f) := by
  intro s
  obtain ⟨a, s1, evs1, h1, ht1, hp1⟩ := hm s
  obtain ⟨b, s2, evs2, h2, ht2, hp2⟩ := hf a s1
  refine ⟨b, s2, evs1 ++ evs2, by simp [h1, h2], by simp [ht1, ht2], ?_⟩
  intro e he
  rcases List.mem_append.mp he with h | h
  · exact hp1 e h
  · exact hp2 e h

theorem plain_emit (e : Ev) (he : is_plain e = true) : Plain (emit e) :=
  fun s => ⟨(), _, [e], rfl, rfl, by simpa using he⟩

theorem plain_mutex_enter (l : kmutex) : Plain (mutex_enter l) := by
  intro s
  refine ⟨(), _, [Ev.mutex_enter l], rfl, ?_, by simp [is_plain, is_response, is_handler,
    is_req_free]⟩
  cases l <;> rfl

theorem plain_mutex_exit (l : kmutex) : Plain (mutex_exit l) := by
  intro s
  refine ⟨(), _, [Ev.mutex_exit l], rfl, ?_, by simp [is_plain, is_response, is_handler,
    is_req_free]⟩
  cases l <;> rfl

theorem plain_get_state : Plain get_state :=
  fun s => ⟨s, s, [], rfl, by simp, by simp⟩

theorem plain_kbmd_set_token (kt : kbmd_token_t) : Plain (kbmd_set_token kt) :=
  fun s => ⟨(), _, [Ev.kbmd_set_token kt], rfl, rfl, by simp [is_plain, is_response,
    is_handler, is_req_free]⟩

theorem plain_set_systoken (H : kbmd_hdr) (X : kbmd_ext) (guid : Bytes) (guidlen : Nat) :
    Plain (set_systoken H X guid guidlen) := by
  unfold set_systoken
  repeat (first
    | with_reducible exact plain_pure _
    | (with_reducible refine plain_emit _ ?_) <;> exact rfl
    | with_reducible exact plain_mutex_enter _
    | with_reducible exact plain_mutex_exit _
    | with_reducible exact plain_get_state
    | with_reducible exact plain_kbmd_set_token _
    | with_reducible refine plain_bind ?_ (fun _ => ?_)
    | dsimp only
    | split)

theorem plain_load_key (H : kbmd_hdr) (X : kbmd_ext) (dataset : String) (key : Bytes)
    (keylen : Nat) : Plain (load_key H X dataset key keylen) := by
  unfold load_key
  repeat (first
    | with_reducible exact plain_pure _
    | (with_reducible refine plain_emit _ ?_) <;> exact rfl
    | with_reducible refine plain_bind ?_ (fun _ => ?_)
    | dsimp only
    | split)

theorem plain_get_dataset_status (H : kbmd_hdr) (X : kbmd_ext) (dataset : String) :
    Plain (get_dataset_status H X dataset) := by
  unfold get_dataset_status
  repeat (first
    | with_reducible exact plain_pure _
    | with_reducible exact plain_mutex_enter _
    | with_reducible exact plain_mutex_exit _
    | with_reducible refine plain_bind ?_ (fun _ => ?_)
    | dsimp only
    | split)

theorem plain_unlock_dataset (H : kbmd_hdr) (X : kbmd_ext) (dataset : String) :
    Plain (unlock_dataset H X dataset) := by
  unfold unlock_dataset
  repeat (first
    | with_reducible exact plain_pure _
    | (with_reducible refine plain_emit _ ?_) <;> exact rfl
    | with_reducible exact plain_mutex_enter _
    | with_reducible exact plain_mutex_exit _
    | with_reducible exact plain_get_dataset_status _ _ _
    | with_reducible exact plain_load_key _ _ _ _ _
    | with_reducible refine plain_bind ?_ (fun _ => ?_)
    | dsimp only
    | split)

set_option maxRecDepth 10000 in
theorem plain_cmd_zpool_create_body (H : kbmd_hdr) (X : kbmd_ext) (req : nvlist_t) :
    Plain (cmd_zpool_create_body H X req) := by
  unfold cmd_zpool_create_body
  repeat (first
    | with_reducible exact plain_pure _
    | (with_reducible refine plain_emit _ ?_) <;> exact rfl
    | with_reducible refine plain_bind ?_ (fun _ => ?_)
    | dsimp only
    | split)

theorem returned_plain_intro {α : Type} (s : kbmd_state) (a : α) (s1 : kbmd_state)
    (evs : List Ev) (ht : s1.trace = s.trace ++ evs) (hp : ∀ e ∈ evs, is_plain e = true) :
    returned_plain s (Outcome.ret a s1) :=
  ⟨a, s1, evs, rfl, ht, hp⟩

/-- Once a system pool is stored, set_syspool returns and makes only plain
calls. -/
theorem set_syspool_returned_plain (H : kbmd_hdr) (X : kbmd_ext) (zpool : String)
    (s : kbmd_state) (cur : String) (hpool : s.sys_pool = some cur) :
    returned_plain s (set_syspool H X zpool s) := by
  by_cases hname : H.IS_ZPOOL zpool = true
  · cases hopen : X.zpool_open_canfail zpool with
    | none =>
      simp [set_syspool, mutex_enter, mutex_exit, set_lock, get_state, hname, hopen]
      exact returned_plain_intro _ _ _ _ rfl (by simp [is_plain, is_response, is_handler,
        is_req_free])
    | some zhp =>
      by_cases hcur : zpool = cur
      · subst hcur
        simp [set_syspool, mutex_enter, mutex_exit, set_lock, get_state, strcmp_eq, hname,
          hopen, hpool]
        exact returned_plain_intro _ _ _ _ rfl (by simp [is_plain, is_response, is_handler,
          is_req_free])
      · cases hz : X.zalloc (zpool.utf8ByteSize + 1) with
        | some e =>
          simp [set_syspool, mutex_enter, mutex_exit, set_lock, get_state, strcmp_eq, hname,
            hopen, hpool, hcur, hz]
          exact returned_plain_intro _ _ _ _ rfl (by simp [is_plain, is_response,
            is_handler, is_req_free])
        | none =>
          simp [set_syspool, mutex_enter, mutex_exit, set_lock, get_state, strcmp_eq, hname,
            hopen, hpool, hcur, hz, set_sys_pool]
          exact returned_plain_intro _ _ _ _ rfl (by simp [is_plain, is_response,
            is_handler, is_req_free])
  · simp [set_syspool, hname]
    exact returned_plain_intro _ _ _ [] (by simp) (by simp)

theorem serves_bind {α : Type} {m : Kbmd α} {f : α → Kbmd Unit} (hm : Plain m)
    (hf : ∀ a, Serves (f a)) : Serves (m >>= f) :=
  fun s => served_bind s (hm s) hf

theorem serves_tail (ret : Option errf_t) :
    Serves (do
      nvlist_free_req
      if ret ≠ ERRF_OK then
        kbmd_ret_error ret
      kbmd_ret_nvlist none) := by
  intro s
  by_cases h : ret = ERRF_OK
  · exact ⟨{ s with trace := s.trace ++ [Ev.nvlist_free_req, Ev.kbmd_ret_nvlist none] },
      [Ev.nvlist_free_req, Ev.kbmd_ret_nvlist none],
      by simp [nvlist_free_req, emit, kbmd_ret_nvlist, h], rfl, rfl, rfl, rfl⟩
  · exact ⟨{ s with trace := s.trace ++ [Ev.nvlist_free_req, Ev.kbmd_ret_error ret] },
      [Ev.nvlist_free_req, Ev.kbmd_ret_error ret],
      by simp [nvlist_free_req, emit, kbmd_ret_error, h], rfl, rfl, rfl, rfl⟩

theorem serves_kbmd_zfs_unlock (H : kbmd_hdr) (X : kbmd_ext) (req : nvlist_t) :
    Serves (kbmd_zfs_unlock H X req) := by
  unfold kbmd_zfs_unlock
  refine serves_bind ?_ (fun ret => serves_tail ret)
  split
  · exact plain_pure _
  · exact plain_unlock_dataset _ _ _

theorem serves_kbmd_set_systoken (H : kbmd_hdr) (X : kbmd_ext) (req : nvlist_t) :
    Serves (kbmd_set_systoken H X req) := by
  unfold kbmd_set_systoken
  refine serves_bind ?_ (fun ret => serves_tail ret)
  split
  · exact plain_pure _
  · exact plain_set_systoken _ _ _ _

/-- Once a system pool is stored, kbmd_set_syspool serves its request. -/
theorem served_kbmd_set_syspool (H : kbmd_hdr) (X : kbmd_ext) (req : nvlist_t)
    (s : kbmd_state) (cur : String) (hpool : s.sys_pool = some cur) :
    served s (kbmd_set_syspool H X req s) := by
  unfold kbmd_set_syspool
  refine served_bind s ?_ (fun ret => serves_tail ret)
  cases req.KBM_NV_SYSPOOL with
  | error e => exact plain_pure _ s
  | ok zpool => exact set_syspool_returned_plain H X zpool s cur hpool

theorem serves_cmd_zpool_create (H : kbmd_hdr) (X : kbmd_ext) (req : nvlist_t) :
    Serves (cmd_zpool_create H X req) := by
  unfold cmd_zpool_create
  refine serves_bind (plain_cmd_zpool_create_body H X req) (fun l => ?_)
  intro s
  by_cases h : l.ret = ERRF_OK
  · exact ⟨{ s with trace := s.trace ++ [Ev.nvlist_free_req, Ev.kbmd_ret_nvlist l.resp] },
      [Ev.nvlist_free_req, Ev.kbmd_ret_nvlist l.resp],
      by simp [nvlist_free_req, emit, kbmd_ret_nvlist, h], rfl, rfl, rfl, rfl⟩
  · exact ⟨{ s with trace := s.trace ++
        [Ev.nvlist_free_req, Ev.nvlist_free_resp, Ev.kbmd_ret_error l.ret] },
      [Ev.nvlist_free_req, Ev.nvlist_free_resp, Ev.kbmd_ret_error l.ret],
      by simp [nvlist_free_req, emit, kbmd_ret_error, h], rfl, rfl, rfl, rfl⟩

theorem serves_cmd_add_recovery (H : kbmd_hdr) (X : kbmd_ext) (req : nvlist_t) :
    Serves (cmd_add_recovery H X req) := by
  unfold cmd_add_recovery
  exact serves_tail _

theorem serves_cmd_activate_recovery (X : kbmd_ext) : Serves (cmd_activate_recovery X) := by
  unfold cmd_activate_recovery
  exact serves_tail _

theorem serves_cmd_remove_recovery (X : kbmd_ext) : Serves (cmd_remove_recovery X) := by
  unfold cmd_remove_recovery
  exact serves_tail _

theorem served_arm (c : kbm_cmd_t) (h : Kbmd Unit) (s : kbmd_state)
    (hs : served { s with trace := s.trace ++ [Ev.handler c] }
      (h { s with trace := s.trace ++ [Ev.handler c] })) :
    ∃ s1 evs, (emit (Ev.handler c) >>= fun _ => h) s = Outcome.done s1 ∧
      s1.trace = s.trace ++ evs ∧
      evs.filter is_handler = [Ev.handler c] ∧
      (evs.filter is_response).length = 1 ∧
      (evs.filter is_req_free).length = 1 := by
  obtain ⟨s1, evs, h1, ht, hh, hr, hq⟩ := hs
  refine ⟨s1, Ev.handler c :: evs, by simp [emit, h1], by simp [ht], ?_, ?_, ?_⟩
  · simp [List.filter_cons, is_handler, hh]
  · simp [List.filter_cons, is_response, hr]
  · simp [List.filter_cons, is_req_free, hq]

theorem cmd_code_injective (H : kbmd_hdr) (hdistinct : (known_codes H).Nodup)
    (a b : kbm_cmd_t) (h : cmd_code H a = cmd_code H b) : a = b := by
  have ha : a ∈ all_cmds := by cases a <;> simp [all_cmds]
  have hb : b ∈ all_cmds := by cases b <;> simp [all_cmds]
  exact List.inj_on_of_nodup_map hdistinct ha hb h

/-- Once a system pool is stored: let the ten command values be distinct, as
the labels of a C switch are.  On a request whose command tag is the value of
one of the seven commands handled in cmds.c, and whatever the collaborators
return, dispatch_request does what the handler of that command does, and
nothing else: its outcome is the outcome of handler_of for that command, run
once on the state with the start of the handler recorded.  That handler ends
in a terminal call after exactly one response and exactly one release of the
request. -/
theorem dispatch_request_runs_core_handler (H : kbmd_hdr) (X : kbmd_ext) (req : nvlist_t)
    (req_pid : Nat) (cmdval0 : Int) (s : kbmd_state) (c : kbm_cmd_t) (cur : String)
    (hdistinct : (known_codes H).Nodup) (hcore : c ∈ core_cmds)
    (htag : req.KBM_NV_CMD = Except.ok (cmd_code H c))
    (hpool : s.sys_pool = some cur) :
    dispatch_request H X req req_pid cmdval0 s =
      handler_of H X req req_pid c { s with trace := s.trace ++ [Ev.handler c] } ∧
    ∃ s1 evs, dispatch_request H X req req_pid cmdval0 s = Outcome.done s1 ∧
      s1.trace = s.trace ++ evs ∧
      evs.filter is_handler = [Ev.handler c] ∧
      (evs.filter is_response).length = 1 ∧
      (evs.filter is_req_free).length = 1 := by
  have e1 : H.KBM_CMD_ZFS_UNLOCK = cmd_code H kbm_cmd_t.KBM_CMD_ZFS_UNLOCK := rfl
  have e2 : H.KBM_CMD_ZPOOL_CREATE = cmd_code H kbm_cmd_t.KBM_CMD_ZPOOL_CREATE := rfl
  have e3 : H.KBM_CMD_RECOVER_START = cmd_code H kbm_cmd_t.KBM_CMD_RECOVER_START := rfl
  have e4 : H.KBM_CMD_RECOVER_RESP = cmd_code H kbm_cmd_t.KBM_CMD_RECOVER_RESP := rfl
  have e5 : H.KBM_CMD_ADD_RECOVERY = cmd_code H kbm_cmd_t.KBM_CMD_ADD_RECOVERY := rfl
  have e6 : H.KBM_CMD_LIST_RECOVERY = cmd_code H kbm_cmd_t.KBM_CMD_LIST_RECOVERY := rfl
  have e7 : H.KBM_CMD_ACTIVATE_RECOVERY = cmd_code H kbm_cmd_t.KBM_CMD_ACTIVATE_RECOVERY := rfl
  have e8 : H.KBM_CMD_CANCEL_RECOVERY = cmd_code H kbm_cmd_t.KBM_CMD_CANCEL_RECOVERY := rfl
  have e9 : H.KBM_CMD_SET_SYSTOKEN = cmd_code H kbm_cmd_t.KBM_CMD_SET_SYSTOKEN := rfl
  have e10 : H.KBM_CMD_SET_SYSPOOL = cmd_code H kbm_cmd_t.KBM_CMD_SET_SYSPOOL := rfl
  have hiff : ∀ a b : kbm_cmd_t, (cmd_code H a = cmd_code H b) = (a = b) :=
    fun a b => propext ⟨cmd_code_injective H hdistinct a b, fun h => congrArg _ h⟩
  have hpure : ∀ (v : Int) (f : Int → Kbmd Unit), ((pure v : Kbmd Int) >>= f) = f v :=
    fun _ _ => rfl
  unfold dispatch_request
  rw [htag, e1, e2, e3, e4, e5, e6, e7, e8, e9, e10]
  simp only [core_cmds, List.mem_cons, List.mem_singleton, List.not_mem_nil, or_false] at hcore
  rcases hcore with h | h | h | h | h | h | h <;> subst h <;>
    simp only [hpure, hiff, reduceCtorEq, if_true, if_false]
  · exact ⟨rfl, served_arm _ _ s (serves_kbmd_zfs_unlock H X req _)⟩
  · exact ⟨rfl, served_arm _ _ s (serves_cmd_zpool_create H X req _)⟩
  · exact ⟨rfl, served_arm _ _ s (serves_cmd_add_recovery H X req _)⟩
  · exact ⟨rfl, served_arm _ _ s (serves_cmd_activate_recovery X _)⟩
  · exact ⟨rfl, served_arm _ _ s (serves_cmd_remove_recovery X _)⟩
  · exact ⟨rfl, served_arm _ _ s (serves_kbmd_set_systoken H X req _)⟩
  · exact ⟨rfl, served_arm _ _ s (served_kbmd_set_syspool H X req _ cur hpool)⟩

/-- C9 (the code departs from the claim): the daemon has just started, so no
system pool is stored and sys_pool is NULL.  The request carries the command
value of KBM_CMD_SET_SYSPOOL, one of the seven commands handled in cmds.c, and
names the pool zones, which exists.  dispatch_request starts kbmd_set_syspool;
set_syspool finds the pool, takes piv_lock and hands the NULL sys_pool to
strcmp.  The daemon faults there: no response is sent and the request is not
released. -/
theorem dispatch_request_set_syspool_at_boot_faults :
    kbm_cmd_t.KBM_CMD_SET_SYSPOOL ∈ core_cmds ∧
    (sample_req (Except.ok 9)).KBM_NV_CMD =
      Except.ok (cmd_code sample_hdr kbm_cmd_t.KBM_CMD_SET_SYSPOOL) ∧
    (known_codes sample_hdr).Nodup ∧
    dispatch_request sample_hdr sample_ext (sample_req (Except.ok 9)) 100 0 boot_state =
      Outcome.fault { boot_state with
        piv_lock := true,
        trace := [Ev.handler kbm_cmd_t.KBM_CMD_SET_SYSPOOL,
          Ev.mutex_enter kmutex.g_zfs_lock, Ev.mutex_exit kmutex.g_zfs_lock,
          Ev.mutex_enter kmutex.piv_lock] } := by
  refine ⟨by decide, rfl, by decide, ?_⟩
  rfl

/-! ## The identity lock -/

theorem balanced_intro {α : Type} (s : kbmd_state) (r : α) (s1 : kbmd_state) (evs : List Ev)
    (ht : s1.trace = s.trace ++ evs) (hl : s1.piv_lock = false)
    (hrun : lock_run kmutex.piv_lock false evs = some false)
    (hc : evs.count (Ev.mutex_enter kmutex.piv_lock) =
      evs.count (Ev.mutex_exit kmutex.piv_lock)) :
    piv_lock_balanced s (Outcome.ret r s1) :=
  ⟨r, s1, evs, rfl, ht, hl, hrun, hc⟩

theorem unlock_dataset_piv_lock (H : kbmd_hdr) (X : kbmd_ext) (dataset : String)
    (s : kbmd_state) : piv_lock_balanced s (unlock_dataset H X dataset s) := by
  cases h1 : X.ezfs_open dataset with
  | error e =>
    simp [unlock_dataset, get_dataset_status, load_key, mutex_enter, mutex_exit, set_lock,
      emit, h1]
    exact balanced_intro _ _ _ _ rfl rfl rfl rfl
  | ok zhp =>
    by_cases h2 : to_int (X.zfs_prop_get_int zhp zfs_prop_t.ZFS_PROP_ENCRYPTION) = H.ZIO_CRYPT_OFF
    · simp [unlock_dataset, get_dataset_status, load_key, mutex_enter, mutex_exit, set_lock,
        emit, h1, h2]
      exact balanced_intro _ _ _ _ rfl rfl rfl rfl
    · by_cases h3 : to_int (X.zfs_prop_get_int zhp zfs_prop_t.ZFS_PROP_KEYSTATUS) =
          H.ZFS_KEYSTATUS_AVAILABLE
      · simp [unlock_dataset, get_dataset_status, load_key, mutex_enter, mutex_exit, set_lock,
          emit, h1, h2, h3]
        exact balanced_intro _ _ _ _ rfl rfl rfl rfl
      · cases h4 : X.kbmd_get_ebox dataset false with
        | error e =>
          simp [unlock_dataset, get_dataset_status, load_key, mutex_enter, mutex_exit,
            set_lock, emit, h1, h2, h3, h4]
          exact balanced_intro _ _ _ _ rfl rfl rfl rfl
        | ok box =>
          cases h5 : X.kbmd_unlock_ebox box with
          | error e =>
            simp [unlock_dataset, get_dataset_status, load_key, mutex_enter, mutex_exit,
              set_lock, emit, h1, h2, h3, h4, h5]
            exact balanced_intro _ _ _ _ rfl rfl rfl rfl
          | ok kt =>
            by_cases h6 : ¬ X.lzc_load_key dataset false (X.ebox_key box)
                (X.ebox_key box).length = 0 ∧
                ¬ X.lzc_load_key dataset false (X.ebox_key box)
                (X.ebox_key box).length = H.EEXIST
            · simp [unlock_dataset, get_dataset_status, load_key, mutex_enter, mutex_exit,
                set_lock, emit, h1, h2, h3, h4, h5, h6]
              exact balanced_intro _ _ _ _ rfl rfl rfl rfl
            · simp [unlock_dataset, get_dataset_status, load_key, mutex_enter, mutex_exit,
                set_lock, emit, h1, h2, h3, h4, h5, h6]
              exact balanced_intro _ _ _ _ rfl rfl rfl rfl

theorem set_systoken_piv_lock (H : kbmd_hdr) (X : kbmd_ext) (guid : Bytes) (guidlen : Nat)
    (s : kbmd_state) (hfree : s.piv_lock = false) :
    piv_lock_balanced s (set_systoken H X guid guidlen s) := by
  by_cases hlen : guidlen = H.GUID_LEN
  · by_cases hsame : (match s.sys_piv with
        | some sp => (piv_token_guid sp.kt_piv).take H.GUID_LEN == guid.take H.GUID_LEN
        | none => false) = true
    · simp [set_systoken, mutex_enter, mutex_exit, set_lock, emit, get_state, hlen, hsame]
      exact balanced_intro _ _ _ _ rfl rfl rfl rfl
    · cases hk : X.kbmd_find_byguid guid H.GUID_LEN with
      | error e =>
        simp [set_systoken, mutex_enter, mutex_exit, set_lock, emit, get_state, hlen, hsame,
          hk]
        exact balanced_intro _ _ _ _ rfl rfl rfl rfl
      | ok kt =>
        simp [set_systoken, mutex_enter, mutex_exit, set_lock, emit, get_state, hlen, hsame,
          hk, kbmd_set_token]
        exact balanced_intro _ _ _ _ rfl rfl rfl rfl
  · simp [set_systoken, hlen]
    exact balanced_intro _ _ _ [] (by simp) hfree rfl rfl

/-- Once a system pool is stored, set_syspool keeps the discipline of
piv_lock. -/
theorem set_syspool_piv_lock (H : kbmd_hdr) (X : kbmd_ext) (zpool : String)
    (s : kbmd_state) (cur : String) (hfree : s.piv_lock = false)
    (hpool : s.sys_pool = some cur) :
    piv_lock_balanced s (set_syspool H X zpool s) := by
  by_cases hname : H.IS_ZPOOL zpool = true
  · cases hopen : X.zpool_open_canfail zpool with
    | none =>
      simp [set_syspool, mutex_enter, mutex_exit, set_lock, get_state, hname, hopen]
      exact balanced_intro _ _ _ _ rfl hfree rfl rfl
    | some zhp =>
      by_cases hcur : zpool = cur
      · subst hcur
        simp [set_syspool, mutex_enter, mutex_exit, set_lock, get_state, strcmp_eq, hname,
          hopen, hpool]
        exact balanced_intro _ _ _ _ rfl rfl rfl rfl
      · cases hz : X.zalloc (zpool.utf8ByteSize + 1) with
        | some e =>
          simp [set_syspool, mutex_enter, mutex_exit, set_lock, get_state, strcmp_eq, hname,
            hopen, hpool, hcur, hz]
          exact balanced_intro _ _ _ _ rfl rfl rfl rfl
        | none =>
          simp [set_syspool, mutex_enter, mutex_exit, set_lock, get_state, strcmp_eq, hname,
            hopen, hpool, hcur, hz, set_sys_pool]
          exact balanced_intro _ _ _ _ rfl rfl rfl rfl
  · simp [set_syspool, hname]
    exact balanced_intro _ _ _ [] (by simp) hfree rfl rfl

/-- With the held flag of piv_lock in the state and every mutex call in the
trace: unlock_dataset and set_systoken in every state, and set_syspool once a
system pool is stored, entered with piv_lock free, return with piv_lock free
for every input and every collaborator outcome.  Replayed on a free mutex, the
calls each of them made never enter piv_lock while it is held, never leave it
while it is free, and end with it free. -/
theorem piv_lock_released_when_pool_is_stored (H : kbmd_hdr) (X : kbmd_ext)
    (dataset : String) (guid : Bytes) (guidlen : Nat) (zpool : String) (s : kbmd_state)
    (cur : String) (hfree : s.piv_lock = false) :
    piv_lock_balanced s (unlock_dataset H X dataset s) ∧
    piv_lock_balanced s (set_systoken H X guid guidlen s) ∧
    (s.sys_pool = some cur → piv_lock_balanced s (set_syspool H X zpool s)) :=
  ⟨unlock_dataset_piv_lock H X dataset s, set_systoken_piv_lock H X guid guidlen s hfree,
    fun hpool => set_syspool_piv_lock H X zpool s cur hfree hpool⟩

/-- C10 (the code departs from the claim): the daemon has just started, so no
system pool is stored and sys_pool is NULL, and piv_lock is free.
set_syspool of the pool zones, which exists, takes piv_lock and hands the
NULL sys_pool to strcmp.  The daemon faults there with piv_lock held:
set_syspool does not return, and the mutex_enter it made has no mutex_exit. -/
theorem set_syspool_at_boot_faults_holding_piv_lock :
    boot_state.piv_lock = false ∧
    set_syspool sample_hdr sample_ext "zones" boot_state =
      Outcome.fault { boot_state with
        piv_lock := true,
        trace := [Ev.mutex_enter kmutex.g_zfs_lock, Ev.mutex_exit kmutex.g_zfs_lock,
          Ev.mutex_enter kmutex.piv_lock] } ∧
    ¬ piv_lock_balanced boot_state (set_syspool sample_hdr sample_ext "zones" boot_state) := by
  have hrun : set_syspool sample_hdr sample_ext "zones" boot_state =
      Outcome.fault { boot_state with
        piv_lock := true,
        trace := [Ev.mutex_enter kmutex.g_zfs_lock, Ev.mutex_exit kmutex.g_zfs_lock,
          Ev.mutex_enter kmutex.piv_lock] } := rfl
  refine ⟨rfl, hrun, ?_⟩
  rintro ⟨r, s1, evs, h, _⟩
  rw [hrun] at h
  cases h

/-! ## The system pool -/

theorem set_syspool_open_failure (H : kbmd_hdr) (X : kbmd_ext) (zpool : String)
    (s : kbmd_state) (hname : H.IS_ZPOOL zpool = true)
    (hopen : X.zpool_open_canfail zpool = none) :
    set_syspool H X zpool s =
      Outcome.ret (some (errf "zpool_open_canfail" none
          ("could not determine existence of \x27" ++ zpool ++ "\x27")))
        { s with g_zfs_lock := false, trace := s.trace ++
          [Ev.mutex_enter kmutex.g_zfs_lock, Ev.mutex_exit kmutex.g_zfs_lock] } := by
  simp [set_syspool, mutex_enter, mutex_exit, set_lock, hname, hopen]

/-- When the pool opens and a system pool is stored, set_syspool returns
ERRF_OK or the error of zalloc: the NotFoundError branch is never taken. -/
theorem set_syspool_open_success (H : kbmd_hdr) (X : kbmd_ext) (zpool : String)
    (s : kbmd_state) (zhp : zpool_handle_t) (cur : String) (hname : H.IS_ZPOOL zpool = true)
    (hopen : X.zpool_open_canfail zpool = some zhp) (hpool : s.sys_pool = some cur) :
    ∃ r s1, set_syspool H X zpool s = Outcome.ret r s1 ∧
      (r = ERRF_OK ∨ r = X.zalloc (zpool.utf8ByteSize + 1)) := by
  by_cases hcur : zpool = cur
  · subst hcur
    simp [set_syspool, mutex_enter, mutex_exit, set_lock, get_state, strcmp_eq, hname, hopen,
      hpool]
  · cases hz : X.zalloc (zpool.utf8ByteSize + 1) with
    | some e =>
      simp [set_syspool, mutex_enter, mutex_exit, set_lock, get_state, strcmp_eq, hname,
        hopen, hpool, hcur, hz]
    | none =>
      simp [set_syspool, mutex_enter, mutex_exit, set_lock, get_state, strcmp_eq, hname,
        hopen, hpool, hcur, hz, set_sys_pool]

/-- C8 (the code departs from the claim): the pool tank does not exist on the
sample host, so zpool_open_canfail returns NULL for it.  set_syspool then
fails with the zpool_open_canfail error, not with NotFoundError, and leaves
the stored system pool as it was.  The NotFoundError branch of set_syspool
tests a flag that is computed from the handle after the NULL handle has
already returned, so no input reaches it. -/
theorem set_syspool_absent_pool_is_open_failure :
    sample_hdr.IS_ZPOOL "tank" = true ∧
    sample_ext.zpool_open_canfail "tank" = none ∧
    ∃ e s1, set_syspool sample_hdr sample_ext "tank" sample_state = Outcome.ret (some e) s1 ∧
      e.top.name = "zpool_open_canfail" ∧ e.top.name ≠ "NotFoundError" ∧
      s1.sys_pool = sample_state.sys_pool := by
  have hname : sample_hdr.IS_ZPOOL "tank" = true := by decide
  have hopen : sample_ext.zpool_open_canfail "tank" = none := by decide
  refine ⟨hname, hopen, _, _,
    set_syspool_open_failure sample_hdr sample_ext "tank" sample_state hname hopen, rfl, ?_, rfl⟩
  show "zpool_open_canfail" ≠ "NotFoundError"
  decide

/-! ## The results on the concrete system -/

/-- The command value 42 is none of the ten known ones: the request is freed and
answered with InvalidCommand. -/
theorem dispatch_request_malformed_tag_witness :
    malformed_tag sample_hdr (sample_req (Except.ok 42)) ∧
    ∃ e, dispatch_request sample_hdr sample_ext (sample_req (Except.ok 42)) 100 0 sample_state =
        Outcome.done { sample_state with trace := sample_state.trace ++
          [Ev.nvlist_free_req, Ev.kbmd_ret_error (some e)] } ∧
      e.top.name = "InvalidCommand" :=
  have h : malformed_tag sample_hdr (sample_req (Except.ok 42)) := by
    simp [malformed_tag, sample_req, known_codes, all_cmds, cmd_code, sample_hdr]
  ⟨h, dispatch_request_malformed_tag sample_hdr sample_ext (sample_req (Except.ok 42)) 100 0
    sample_state h⟩

/-- Unlocking zones/plain, which is not encrypted, is an ArgumentError. -/
theorem unlock_dataset_not_encrypted_witness :
    ∃ e, unlock_dataset sample_hdr sample_ext "zones/plain" sample_state =
        Outcome.ret (some e) { sample_state with
          piv_lock := false, g_zfs_lock := false,
          trace := sample_state.trace ++ [Ev.mutex_enter kmutex.piv_lock,
            Ev.mutex_enter kmutex.g_zfs_lock, Ev.mutex_exit kmutex.g_zfs_lock,
            Ev.mutex_exit kmutex.piv_lock] } ∧
      e.top.name = "ArgumentError" :=
  (unlock_dataset_not_encrypted sample_hdr sample_ext "zones/plain" sample_state ⟨0⟩
    rfl (by decide)).2

/-- Unlocking zones/open, whose key is loaded, is AlreadyUnlocked. -/
theorem unlock_dataset_already_unlocked_witness :
    ∃ e, unlock_dataset sample_hdr sample_ext "zones/open" sample_state =
        Outcome.ret (some e) { sample_state with
          piv_lock := false, g_zfs_lock := false,
          trace := sample_state.trace ++ [Ev.mutex_enter kmutex.piv_lock,
            Ev.mutex_enter kmutex.g_zfs_lock, Ev.mutex_exit kmutex.g_zfs_lock,
            Ev.mutex_exit kmutex.piv_lock] } ∧
      e.top.name = "AlreadyUnlocked" ∧ e.top.name ≠ "ArgumentError" :=
  (unlock_dataset_already_unlocked sample_hdr sample_ext "zones/open" sample_state ⟨1⟩
    rfl (by decide) (by decide)).2

/-- Unlocking zones/locked loads the 4-byte key of its box once; the kernel
answers 17, which is EEXIST. -/
theorem unlock_dataset_loads_key_once_witness :
    ∃ r, unlock_dataset sample_hdr sample_ext "zones/locked" sample_state =
        Outcome.ret r { sample_state with
          piv_lock := false, g_zfs_lock := false,
          trace := sample_state.trace ++ [Ev.mutex_enter kmutex.piv_lock,
            Ev.mutex_enter kmutex.g_zfs_lock, Ev.mutex_exit kmutex.g_zfs_lock,
            Ev.kbmd_get_ebox "zones/locked", Ev.kbmd_unlock_ebox ⟨7⟩,
            Ev.lzc_load_key "zones/locked" [1, 2, 3, 4] 4,
            Ev.mutex_exit kmutex.piv_lock] } ∧
      (r = ERRF_OK ↔ (17 : Int) = 0 ∨ (17 : Int) = 17) :=
  unlock_dataset_loads_key_once sample_hdr sample_ext "zones/locked" sample_state ⟨2⟩ ⟨7⟩
    ⟨⟨[], 1⟩⟩ rfl (by decide) (by decide) rfl rfl

/-- A 3-byte GUID is refused and the state is untouched. -/
theorem set_systoken_bad_length_witness :
    ∃ e, set_systoken sample_hdr sample_ext [1, 2, 3] 3 sample_state =
        Outcome.ret (some e) sample_state ∧ e.top.name = "ParameterError" :=
  set_systoken_bad_length sample_hdr sample_ext [1, 2, 3] 3 sample_state (by decide)

/-- After a first set_systoken of the 16-byte GUID has looked the token up and
installed it, the second only takes and releases piv_lock. -/
theorem set_systoken_twice_witness :
    (16 : Nat) = sample_hdr.GUID_LEN ∧
    set_systoken sample_hdr sample_ext sample_guid 16
        { sample_state with
          sys_piv := some ⟨⟨sample_guid, 1⟩⟩,
          trace := [Ev.mutex_enter kmutex.piv_lock, Ev.kbmd_find_byguid sample_guid 16,
            Ev.kbmd_set_token ⟨⟨sample_guid, 1⟩⟩, Ev.mutex_exit kmutex.piv_lock] } =
      Outcome.ret ERRF_OK { sample_state with
        sys_piv := some ⟨⟨sample_guid, 1⟩⟩,
        trace := [Ev.mutex_enter kmutex.piv_lock, Ev.kbmd_find_byguid sample_guid 16,
            Ev.kbmd_set_token ⟨⟨sample_guid, 1⟩⟩, Ev.mutex_exit kmutex.piv_lock] ++
          [Ev.mutex_enter kmutex.piv_lock, Ev.mutex_exit kmutex.piv_lock] } :=
  set_systoken_twice sample_hdr sample_ext sample_guid 16 sample_state _
    (by intro kt h; cases h; rfl) rfl

/-- A pool creation with a 3-byte GUID and no other field is answered with
InvalidGUID. -/
theorem cmd_zpool_create_bad_guid_nonempty_sample :
    ∃ e, cmd_zpool_create sample_hdr sample_ext (sample_req (Except.ok 1)) sample_state =
        Outcome.done { sample_state with trace := sample_state.trace ++
          [Ev.nvlist_free_req, Ev.nvlist_free_resp, Ev.kbmd_ret_error (some e)] } ∧
      e.top.name = "InvalidGUID" :=
  cmd_zpool_create_bad_guid_nonempty sample_hdr sample_ext (sample_req (Except.ok 1))
    sample_state [1, 2, 3] rfl (by decide) (by decide) rfl

/-- With the pool zones stored, the command value 9 runs kbmd_set_syspool, which
answers once. -/
theorem dispatch_request_runs_core_handler_sample :
    dispatch_request sample_hdr sample_ext (sample_req (Except.ok 9)) 100 0 sample_state =
      handler_of sample_hdr sample_ext (sample_req (Except.ok 9)) 100
        kbm_cmd_t.KBM_CMD_SET_SYSPOOL
        { sample_state with trace := sample_state.trace ++
          [Ev.handler kbm_cmd_t.KBM_CMD_SET_SYSPOOL] } ∧
    ∃ s1 evs, dispatch_request sample_hdr sample_ext (sample_req (Except.ok 9)) 100 0
        sample_state = Outcome.done s1 ∧
      s1.trace = sample_state.trace ++ evs ∧
      evs.filter is_handler = [Ev.handler kbm_cmd_t.KBM_CMD_SET_SYSPOOL] ∧
      (evs.filter is_response).length = 1 ∧
      (evs.filter is_req_free).length = 1 :=
  dispatch_request_runs_core_handler sample_hdr sample_ext (sample_req (Except.ok 9)) 100 0
    sample_state kbm_cmd_t.KBM_CMD_SET_SYSPOOL "zones" (by decide) (by decide) rfl rfl

end Cmds
